import Mathlib

/-!
Verification of the slurm command gateway helpers: a shallow embedding of
`module_utils/sacctmgr_helper.py` and `module_utils/scontrol_helper.py`.
Subprocess execution and the stdlib `json.loads` are supplied as oracles;
everything else is translated directly from the two helper classes.
-/

/-- Model of a decoded JSON value, the payload type of the stdlib JSON decoder. -/
inductive Json
  | null
  | bool (b : Bool)
  | num (n : Int)
  | str (s : String)
  | arr (elems : List Json)
  | obj (fields : List (String × Json))

/-- The `options` argument accepted by the helpers: Python `None`, a raw string,
an already-tokenized list of strings, or a (truthy) value of any other type. -/
inductive Opts
  | none
  | str (s : String)
  | list (l : List String)
  | other

/-- Python truthiness of the `options` argument (the `if options:` checks). -/
def Opts.truthy : Opts → Bool
  | .none => false
  | .str s => s != ""
  | .list l => !l.isEmpty
  | .other => true

/-- A fatal signal leaving `run_command` or `_build_command`: either
`module.fail_json(msg=...)` or an uncaught Python exception (kind, message). -/
inductive Fatal
  | failJson (msg : String)
  | pyError (kind msg : String)
deriving DecidableEq

/-- Python `str.lower()`, modelled on the character list so that it computes
by reduction. -/
def pyLower (s : String) : String := String.mk (s.data.map Char.toLower)

/-- Python `str.strip()` with no arguments: drop leading and trailing
whitespace. -/
def pyStrip (s : String) : String :=
  String.mk (((s.data.dropWhile Char.isWhitespace).reverse.dropWhile Char.isWhitespace).reverse)

/-- Helper loop for `pySplit`. -/
def pySplitAux : List Char → Option String → List String → List String
  | [], cur, acc => acc ++ cur.toList
  | c :: rest, cur, acc =>
    if c.isWhitespace then
      match cur with
      | some t => pySplitAux rest Option.none (acc ++ [t])
      | none => pySplitAux rest Option.none acc
    else pySplitAux rest (some ((cur.getD "").push c)) acc

/-- Python `str.split()` with no arguments: split on runs of whitespace and
discard empty fields. -/
def pySplit (s : String) : List String := pySplitAux s.data Option.none []

/-- The single-quote character. -/
def squote : Char := Char.ofNat 39

/-- The double-quote character. -/
def dquote : Char := Char.ofNat 34

/-- The backslash character. -/
def bslash : Char := Char.ofNat 92

/-- Quoting state of the shell-word tokenizer. -/
inductive ShMode
  | normal
  | single
  | double

/-- Model of the stdlib shell-word splitter in POSIX mode, as used by
`shlex.split(options)`: whitespace-separated tokens with single quotes, double
quotes and backslash escapes; unbalanced quoting is a ValueError. -/
def shlexRun : List Char → ShMode → Option String → List String → Except String (List String)
  | [], .normal, cur, acc => .ok (acc ++ cur.toList)
  | [], .single, _, _ => .error "No closing quotation"
  | [], .double, _, _ => .error "No closing quotation"
  | c :: rest, .normal, cur, acc =>
    if c.isWhitespace then
      match cur with
      | some t => shlexRun rest .normal Option.none (acc ++ [t])
      | none => shlexRun rest .normal Option.none acc
    else if c = squote then shlexRun rest .single (some (cur.getD "")) acc
    else if c = dquote then shlexRun rest .double (some (cur.getD "")) acc
    else if c = bslash then
      match rest with
      | [] => .error "No escaped character"
      | d :: rest2 => shlexRun rest2 .normal (some ((cur.getD "").push d)) acc
    else shlexRun rest .normal (some ((cur.getD "").push c)) acc
  | c :: rest, .single, cur, acc =>
    if c = squote then shlexRun rest .normal cur acc
    else shlexRun rest .single (some ((cur.getD "").push c)) acc
  | c :: rest, .double, cur, acc =>
    if c = dquote then shlexRun rest .normal cur acc
    else if c = bslash then
      match rest with
      | [] => .error "No escaped character"
      | d :: rest2 =>
        if d = dquote || d = bslash then
          shlexRun rest2 .double (some ((cur.getD "").push d)) acc
        else shlexRun rest2 .double (some (((cur.getD "").push bslash).push d)) acc
    else shlexRun rest .double (some ((cur.getD "").push c)) acc

/-- Model of `shlex.split`. -/
def shlexSplit (s : String) : Except String (List String) :=
  shlexRun s.toList ShMode.normal Option.none []

/-- The tokens contributed by the `options` argument, shared trailing block of
both `_build_command` implementations: a string is tokenized with the shell-word
splitter, a list is appended unchanged, any other truthy value is the fatal
"Options must be a string or list"; a falsy `options` contributes nothing. -/
def optTokens (options : Opts) : Except Fatal (List String) :=
  if options.truthy then
    match options with
    | .str s =>
      match shlexSplit s with
      | .ok toks => .ok toks
      | .error e => .error (.pyError "ValueError" e)
    | .list l => .ok l
    | _ => .error (.failJson "Options must be a string or list")
  else .ok []

/-- Append the options tokens to the command vector built so far. -/
def appendOpts (cmd : List String) (options : Opts) : Except Fatal (List String) :=
  match optTokens options with
  | .ok toks => .ok (cmd ++ toks)
  | .error f => .error f

/-- Outcome of the subprocess call (capture_output, text, timeout=300): normal
completion with exit code and captured streams, a TimeoutExpired, or any other
raised exception rendered as a string. -/
inductive ExecOutcome
  | completed (returncode : Int) (stdout stderr : String)
  | timedOut
  | raised (msg : String)

/-- The result dictionary produced by `run_command`. The `json_parse_error` key
is only added on a decode failure; it is modelled as an optional field. -/
structure RunResult where
  success : Bool
  stdout : String
  stderr : String
  data : Option Json
  changed : Bool
  command : String
  json_parse_error : Option String

/-- The common tail of both `run_command` implementations for a subprocess that
completed: populate the result dictionary, attempt JSON decoding of stdout when
applicable, and clear `changed` on failure. `jsonVerbOk` stands for the check
that the lowered verb is in the JSON-supported commands of the tool, and
`jloads` models `json.loads`. -/
def completeResult (is_readonly use_json jsonVerbOk : Bool) (cmdline : String)
    (jloads : String → Except String Json) (rc : Int) (out err : String) : RunResult :=
  let result : RunResult :=
    { success := rc == 0, stdout := out, stderr := err, data := Option.none,
      changed := !is_readonly, command := cmdline, json_parse_error := Option.none }
  let result :=
    if result.success && use_json && jsonVerbOk && (pyStrip result.stdout != "") then
      match jloads result.stdout with
      | .ok v => { result with data := some v }
      | .error e => { result with json_parse_error := some e }
    else result
  if !result.success then { result with changed := false } else result

/-- Guard of the JSON decoding attempt in both `run_command` tails, as a
function of the exit code, the JSON request, the verb capability check and the
captured stdout. -/
def decodeCond (rc : Int) (use_json jsonVerbOk : Bool) (out : String) : Bool :=
  (rc == 0) && use_json && jsonVerbOk && (pyStrip out != "")

namespace SacctmgrHelper

/-- Valid sacctmgr commands. -/
def VALID_COMMANDS : List String :=
  ["add", "create", "delete", "remove", "modify", "update",
   "show", "list", "dump", "load", "archive", "clear"]

/-- Valid entities that sacctmgr can operate on. -/
def VALID_ENTITIES : List String :=
  ["account", "association", "cluster", "coordinator", "event",
   "federation", "job", "problem", "qos", "reservation", "resource",
   "runaway", "stats", "transaction", "tres", "user", "wckey"]

/-- Commands that are read-only and should use the readonly flag. -/
def READONLY_COMMANDS : List String := ["show", "list", "dump"]

/-- Commands that support JSON output. -/
def JSON_SUPPORTED_COMMANDS : List String := ["show", "list", "dump"]

/-- Method `validate_command`: fail unless the lowered command is valid. -/
def validate_command (command : String) : Except Fatal Unit :=
  if !VALID_COMMANDS.contains (pyLower command) then
    .error (.failJson ("Invalid sacctmgr command: " ++ command ++
      ". Valid commands are: " ++ String.intercalate ", " VALID_COMMANDS))
  else .ok ()

/-- Method `validate_entity`: fail unless the lowered entity is valid. -/
def validate_entity (entity : String) : Except Fatal Unit :=
  if !VALID_ENTITIES.contains (pyLower entity) then
    .error (.failJson ("Invalid sacctmgr entity: " ++ entity ++
      ". Valid entities are: " ++ String.intercalate ", " VALID_ENTITIES))
  else .ok ()

/-- Effective readonly status: the explicit `use_readonly` argument when given,
else membership of the lowered command in `READONLY_COMMANDS`. This expression
appears verbatim in `_build_command` (lines 125-126) and again in `run_command`
(line 176). -/
def effectiveReadonly (command : String) (use_readonly : Option Bool) : Bool :=
  match use_readonly with
  | some b => b
  | none => READONLY_COMMANDS.contains (pyLower command)

/-- Method `_build_command` (lines 105-147): path, the mandatory
non-interactive flag, optional readonly flag, optional JSON flag, the command,
the entity, then the options tokens. -/
def build_command (path command entity : String) (options : Opts)
    (use_json : Bool) (use_readonly : Option Bool) : Except Fatal (List String) :=
  let cmd := [path, "--immediate"]
  let cmd := if effectiveReadonly command use_readonly then cmd ++ ["--readonly"] else cmd
  let cmd := if use_json && JSON_SUPPORTED_COMMANDS.contains (pyLower command)
             then cmd ++ ["--json"] else cmd
  appendOpts (cmd ++ [command, entity]) options

/-- Method `run_command` (lines 149-219), with the subprocess runner and
`json.loads` supplied as oracles. -/
def run_command (path command entity : String) (options : Opts)
    (use_json : Bool) (use_readonly : Option Bool)
    (exec : List String → ExecOutcome) (jloads : String → Except String Json) :
    Except Fatal RunResult :=
  match validate_command command with
  | .error f => .error f
  | .ok _ =>
    match validate_entity entity with
    | .error f => .error f
    | .ok _ =>
      match build_command path command entity options use_json use_readonly with
      | .error f => .error f
      | .ok cmd =>
        match exec cmd with
        | .completed rc out err =>
          .ok (completeResult (effectiveReadonly command use_readonly) use_json
            (JSON_SUPPORTED_COMMANDS.contains (pyLower command))
            (String.intercalate " " cmd) jloads rc out err)
        | .timedOut =>
          .error (.failJson ("Command timed out after 300 seconds: " ++
            String.intercalate " " cmd))
        | .raised e => .error (.failJson ("Failed to execute command: " ++ e))

end SacctmgrHelper

namespace ScontrolHelper

/-- Valid scontrol commands. -/
def VALID_COMMANDS : List String :=
  ["cancel_reboot", "create", "completing", "delete", "errnumstr",
   "fsdampeningfactor", "getaddrs", "help", "hold", "notify", "pidinfo",
   "listjobs", "listpids", "liststeps", "ping", "power", "reboot",
   "reconfigure", "release", "requeue", "requeuehold", "resume",
   "schedloglevel", "setdebug", "setdebugflags", "show", "shutdown",
   "suspend", "takeover", "top", "token", "uhold", "update", "version",
   "wait_job", "write"]

/-- Commands that support JSON output. -/
def JSON_SUPPORTED_COMMANDS : List String := ["show"]

/-- Show command entities that support JSON. -/
def JSON_SUPPORTED_ENTITIES : List String :=
  ["job", "node", "partition", "reservation", "config", "licenses",
   "step", "topology", "assoc_mgr", "burstbuffer", "federation",
   "frontend", "slurmd"]

/-- Commands that are read-only. -/
def READONLY_COMMANDS : List String :=
  ["show", "ping", "version", "help", "completing", "listjobs",
   "listpids", "liststeps", "pidinfo", "getaddrs", "errnumstr"]

/-- Valid entities for show commands. -/
def SHOW_ENTITIES : List String :=
  ["aliases", "assoc_mgr", "bbstat", "burstbuffer", "config", "daemons",
   "dwstat", "federation", "frontend", "hostlist", "hostlistsorted",
   "hostnames", "job", "licenses", "node", "partition", "reservation",
   "slurmd", "step", "topology"]

/-- Valid entities for update commands. -/
def UPDATE_ENTITIES : List String :=
  ["job", "step", "node", "partition", "reservation", "frontend"]

/-- Valid entities for create commands. -/
def CREATE_ENTITIES : List String := ["node", "partition", "reservation"]

/-- Valid entities for delete commands. -/
def DELETE_ENTITIES : List String := ["node", "partition", "reservation"]

/-- Method `validate_command`. -/
def validate_command (command : String) : Except Fatal Unit :=
  if !VALID_COMMANDS.contains (pyLower command) then
    .error (.failJson ("Invalid scontrol command: " ++ command ++
      ". Valid commands are: " ++ String.intercalate ", " VALID_COMMANDS))
  else .ok ()

/-- Method `validate_show_entity`. -/
def validate_show_entity (entity : String) : Except Fatal Unit :=
  if !SHOW_ENTITIES.contains (pyLower entity) then
    .error (.failJson ("Invalid show entity: " ++ entity ++
      ". Valid entities are: " ++ String.intercalate ", " SHOW_ENTITIES))
  else .ok ()

/-- Method `validate_update_entity`. -/
def validate_update_entity (entity : String) : Except Fatal Unit :=
  if !UPDATE_ENTITIES.contains (pyLower entity) then
    .error (.failJson ("Invalid update entity: " ++ entity ++
      ". Valid entities are: " ++ String.intercalate ", " UPDATE_ENTITIES))
  else .ok ()

/-- Method `validate_create_entity`. -/
def validate_create_entity (entity : String) : Except Fatal Unit :=
  if !CREATE_ENTITIES.contains (pyLower entity) then
    .error (.failJson ("Invalid create entity: " ++ entity ++
      ". Valid entities are: " ++ String.intercalate ", " CREATE_ENTITIES))
  else .ok ()

/-- Method `validate_delete_entity`. -/
def validate_delete_entity (entity : String) : Except Fatal Unit :=
  if !DELETE_ENTITIES.contains (pyLower entity) then
    .error (.failJson ("Invalid delete entity: " ++ entity ++
      ". Valid entities are: " ++ String.intercalate ", " DELETE_ENTITIES))
  else .ok ()

/-- Extraction of the candidate entity from `options`, the block repeated in
`run_command` and `_build_command`: first element of a non-empty list, first
whitespace token of a string (Python `options.split()[0]`, which raises an
IndexError when the string holds no token), `None` for anything else. -/
def firstToken : Opts → Except Fatal (Option String)
  | .list l => .ok l.head?
  | .str s =>
    match pySplit s with
    | [] => .error (.pyError "IndexError" "list index out of range")
    | t :: _ => .ok (some t)
  | _ => .ok Option.none

/-- The per-verb entity validation block of `run_command` (lines 256-298):
entities are checked only for show, update, create and delete, and only when a
non-empty first options token was extracted. -/
def validateEntityForCommand (command : String) (options : Opts) : Except Fatal Unit :=
  if (pyLower command) == "show" && options.truthy then
    match firstToken options with
    | .error f => .error f
    | .ok (some entity) => if entity != "" then validate_show_entity entity else .ok ()
    | .ok none => .ok ()
  else if (pyLower command) == "update" && options.truthy then
    match firstToken options with
    | .error f => .error f
    | .ok (some entity) => if entity != "" then validate_update_entity entity else .ok ()
    | .ok none => .ok ()
  else if (pyLower command) == "create" && options.truthy then
    match firstToken options with
    | .error f => .error f
    | .ok (some entity) => if entity != "" then validate_create_entity entity else .ok ()
    | .ok none => .ok ()
  else if (pyLower command) == "delete" && options.truthy then
    match firstToken options with
    | .error f => .error f
    | .ok (some entity) => if entity != "" then validate_delete_entity entity else .ok ()
    | .ok none => .ok ()
  else .ok ()

/-- The JSON-flag block of `_build_command` (lines 208-222): starting from the
vector holding only the path, append the JSON flag when the verb is
JSON-capable and the entity extracted from the options is a non-empty
JSON-capable token. -/
def jsonFlagBlock (path command : String) (options : Opts) (use_json : Bool) :
    Except Fatal (List String) :=
  if use_json && JSON_SUPPORTED_COMMANDS.contains (pyLower command) then
    if (pyLower command) == "show" && options.truthy then
      match firstToken options with
      | .error f => .error f
      | .ok ent =>
        match ent.map pyLower with
        | some entity =>
          if entity != "" && JSON_SUPPORTED_ENTITIES.contains entity then
            .ok [path, "--json"]
          else .ok [path]
        | none => .ok [path]
    else .ok [path]
  else .ok [path]

/-- Method `_build_command` (lines 196-237): the path, then for a JSON-capable
verb with a JSON-capable entity (extracted from the options) the JSON flag,
then the verb, then the options tokens. There is no mandatory flag and no
readonly flag. -/
def build_command (path command : String) (options : Opts) (use_json : Bool) :
    Except Fatal (List String) :=
  match jsonFlagBlock path command options use_json with
  | .error f => .error f
  | .ok cmd => appendOpts (cmd ++ [command]) options

/-- Method `run_command` (lines 239-347), with the subprocess runner and
`json.loads` supplied as oracles. -/
def run_command (path command : String) (options : Opts) (use_json : Bool)
    (exec : List String → ExecOutcome) (jloads : String → Except String Json) :
    Except Fatal RunResult :=
  match validate_command command with
  | .error f => .error f
  | .ok _ =>
    match validateEntityForCommand command options with
    | .error f => .error f
    | .ok _ =>
      match build_command path command options use_json with
      | .error f => .error f
      | .ok cmd =>
        match exec cmd with
        | .completed rc out err =>
          .ok (completeResult (READONLY_COMMANDS.contains (pyLower command)) use_json
            (JSON_SUPPORTED_COMMANDS.contains (pyLower command))
            (String.intercalate " " cmd) jloads rc out err)
        | .timedOut =>
          .error (.failJson ("Command timed out after 300 seconds: " ++
            String.intercalate " " cmd))
        | .raised e => .error (.failJson ("Failed to execute command: " ++ e))

end ScontrolHelper

/-- The entity the spec reads from the options for the JSON-capability rule:
the first options token, lowered, when one exists. This definition follows the
wording of the claim for the refinement comparison. -/
def scontrolEntityForJson : Opts → Option String
  | .list l => l.head?.map pyLower
  | .str s => (pySplit s).head?.map pyLower
  | _ => Option.none

/-- The claim-side condition for injecting the JSON flag on the scontrol tool:
JSON requested, verb JSON-capable, and the extracted entity JSON-capable; no
entity means no flag. This definition follows the wording of the claim. -/
def scontrolJsonCondSpec (command : String) (options : Opts) (use_json : Bool) : Bool :=
  use_json && ScontrolHelper.JSON_SUPPORTED_COMMANDS.contains (pyLower command) &&
    (match scontrolEntityForJson options with
     | some e => ScontrolHelper.JSON_SUPPORTED_ENTITIES.contains e
     | none => false)

theorem optTokens_list (l : List String) : optTokens (Opts.list l) = .ok l := by
  cases l <;> simp [optTokens, Opts.truthy]

theorem appendOpts_ok_iff (cmd : List String) (options : Opts) (l : List String) :
    appendOpts cmd options = .ok l ↔
      ∃ toks, optTokens options = .ok toks ∧ l = cmd ++ toks := by
  unfold appendOpts
  cases h : optTokens options <;> simp [eq_comm]

theorem completeResult_eq (ro uj jv : Bool) (cl : String)
    (jl : String → Except String Json) (rc : Int) (out err : String) :
    completeResult ro uj jv cl jl rc out err =
      { success := rc == 0, stdout := out, stderr := err,
        data := if decodeCond rc uj jv out then
                  match jl out with | .ok v => some v | .error _ => Option.none
                else Option.none,
        changed := (rc == 0) && !ro,
        command := cl,
        json_parse_error := if decodeCond rc uj jv out then
                  match jl out with | .ok _ => Option.none | .error e => some e
                else Option.none } := by
  cases h0 : (rc == 0) with
  | false => simp [completeResult, decodeCond, h0]
  | true =>
    cases hg : (uj && jv && (pyStrip out != "")) with
    | false => simp [completeResult, decodeCond, h0, hg]
    | true => cases hj : jl out <;> simp [completeResult, decodeCond, h0, hg, hj]

theorem completeResult_success (ro uj jv : Bool) (cl : String)
    (jl : String → Except String Json) (rc : Int) (out err : String) :
    (completeResult ro uj jv cl jl rc out err).success = (rc == 0) := by
  rw [completeResult_eq]

theorem completeResult_changed (ro uj jv : Bool) (cl : String)
    (jl : String → Except String Json) (rc : Int) (out err : String) :
    (completeResult ro uj jv cl jl rc out err).changed = ((rc == 0) && !ro) := by
  rw [completeResult_eq]

theorem completeResult_command (ro uj jv : Bool) (cl : String)
    (jl : String → Except String Json) (rc : Int) (out err : String) :
    (completeResult ro uj jv cl jl rc out err).command = cl := by
  rw [completeResult_eq]

theorem completeResult_no_decode (ro uj jv : Bool) (cl : String)
    (jl : String → Except String Json) (rc : Int) (out err : String)
    (h : decodeCond rc uj jv out = false) :
    (completeResult ro uj jv cl jl rc out err).data = Option.none ∧
    (completeResult ro uj jv cl jl rc out err).json_parse_error = Option.none := by
  rw [completeResult_eq]
  simp [h]

theorem completeResult_decode_error (ro uj jv : Bool) (cl : String)
    (jl : String → Except String Json) (rc : Int) (out err : String) (e : String)
    (h : decodeCond rc uj jv out = true) (he : jl out = .error e) :
    (completeResult ro uj jv cl jl rc out err).success = true ∧
    (completeResult ro uj jv cl jl rc out err).data = Option.none ∧
    (completeResult ro uj jv cl jl rc out err).json_parse_error = some e := by
  have h0 : (rc == 0) = true := by
    revert h; unfold decodeCond; cases (rc == 0) <;> simp
  rw [completeResult_eq]
  simp [h, he, h0]

theorem sacctmgr_run_ok_iff (path command entity : String) (options : Opts)
    (use_json : Bool) (use_readonly : Option Bool)
    (exec : List String → ExecOutcome) (jloads : String → Except String Json)
    (r : RunResult) :
    SacctmgrHelper.run_command path command entity options use_json use_readonly exec jloads
      = .ok r ↔
    SacctmgrHelper.validate_command command = .ok () ∧
    SacctmgrHelper.validate_entity entity = .ok () ∧
    ∃ cmd, SacctmgrHelper.build_command path command entity options use_json use_readonly
        = .ok cmd ∧
      ∃ rc out err, exec cmd = .completed rc out err ∧
        r = completeResult (SacctmgrHelper.effectiveReadonly command use_readonly) use_json
              (SacctmgrHelper.JSON_SUPPORTED_COMMANDS.contains (pyLower command))
              (String.intercalate " " cmd) jloads rc out err := by
  unfold SacctmgrHelper.run_command
  cases hv : SacctmgrHelper.validate_command command with
  | error f => simp [hv]
  | ok u =>
    cases u
    cases he : SacctmgrHelper.validate_entity entity with
    | error f => simp [he]
    | ok u2 =>
      cases u2
      cases hb : SacctmgrHelper.build_command path command entity options use_json use_readonly with
      | error f => simp [hb]
      | ok cmd =>
        cases hx : exec cmd with
        | completed rc out err =>
          simp [hb, hx, eq_comm]
          constructor
          · rintro h
            exact ⟨rc, out, err, ⟨rfl, rfl, rfl⟩, h⟩
          · rintro ⟨a, b, c, ⟨h1, h2, h3⟩, h4⟩
            subst h1; subst h2; subst h3; exact h4
        | timedOut => simp [hb, hx]
        | raised e => simp [hb, hx]

theorem scontrol_run_ok_iff (path command : String) (options : Opts) (use_json : Bool)
    (exec : List String → ExecOutcome) (jloads : String → Except String Json)
    (r : RunResult) :
    ScontrolHelper.run_command path command options use_json exec jloads = .ok r ↔
    ScontrolHelper.validate_command command = .ok () ∧
    ScontrolHelper.validateEntityForCommand command options = .ok () ∧
    ∃ cmd, ScontrolHelper.build_command path command options use_json = .ok cmd ∧
      ∃ rc out err, exec cmd = .completed rc out err ∧
        r = completeResult (ScontrolHelper.READONLY_COMMANDS.contains (pyLower command)) use_json
              (ScontrolHelper.JSON_SUPPORTED_COMMANDS.contains (pyLower command))
              (String.intercalate " " cmd) jloads rc out err := by
  unfold ScontrolHelper.run_command
  cases hv : ScontrolHelper.validate_command command with
  | error f => simp [hv]
  | ok u =>
    cases u
    cases he : ScontrolHelper.validateEntityForCommand command options with
    | error f => simp [he]
    | ok u2 =>
      cases u2
      cases hb : ScontrolHelper.build_command path command options use_json with
      | error f => simp [hb]
      | ok cmd =>
        cases hx : exec cmd with
        | completed rc out err =>
          simp [hb, hx, eq_comm]
          constructor
          · rintro h
            exact ⟨rc, out, err, ⟨rfl, rfl, rfl⟩, h⟩
          · rintro ⟨a, b, c, ⟨h1, h2, h3⟩, h4⟩
            subst h1; subst h2; subst h3; exact h4
        | timedOut => simp [hb, hx]
        | raised e => simp [hb, hx]

theorem sacctmgr_run_validate_error (path command entity : String) (options : Opts)
    (use_json : Bool) (use_readonly : Option Bool)
    (exec : List String → ExecOutcome) (jloads : String → Except String Json)
    (f : Fatal) (h : SacctmgrHelper.validate_command command = .error f) :
    SacctmgrHelper.run_command path command entity options use_json use_readonly exec jloads
      = .error f := by
  unfold SacctmgrHelper.run_command
  rw [h]

theorem sacctmgr_run_entity_error (path command entity : String) (options : Opts)
    (use_json : Bool) (use_readonly : Option Bool)
    (exec : List String → ExecOutcome) (jloads : String → Except String Json)
    (f : Fatal) (hv : SacctmgrHelper.validate_command command = .ok ())
    (h : SacctmgrHelper.validate_entity entity = .error f) :
    SacctmgrHelper.run_command path command entity options use_json use_readonly exec jloads
      = .error f := by
  unfold SacctmgrHelper.run_command
  rw [hv, h]

theorem sacctmgr_run_outcome (path command entity : String) (options : Opts)
    (use_json : Bool) (use_readonly : Option Bool)
    (exec : List String → ExecOutcome) (jloads : String → Except String Json)
    (cmd : List String)
    (hv : SacctmgrHelper.validate_command command = .ok ())
    (he : SacctmgrHelper.validate_entity entity = .ok ())
    (hb : SacctmgrHelper.build_command path command entity options use_json use_readonly
            = .ok cmd) :
    SacctmgrHelper.run_command path command entity options use_json use_readonly exec jloads
      = match exec cmd with
        | .completed rc out err =>
          .ok (completeResult (SacctmgrHelper.effectiveReadonly command use_readonly) use_json
            (SacctmgrHelper.JSON_SUPPORTED_COMMANDS.contains (pyLower command))
            (String.intercalate " " cmd) jloads rc out err)
        | .timedOut =>
          .error (.failJson ("Command timed out after 300 seconds: " ++
            String.intercalate " " cmd))
        | .raised e => .error (.failJson ("Failed to execute command: " ++ e)) := by
  unfold SacctmgrHelper.run_command
  rw [hv, he, hb]

theorem scontrol_run_validate_error (path command : String) (options : Opts)
    (use_json : Bool)
    (exec : List String → ExecOutcome) (jloads : String → Except String Json)
    (f : Fatal) (h : ScontrolHelper.validate_command command = .error f) :
    ScontrolHelper.run_command path command options use_json exec jloads = .error f := by
  unfold ScontrolHelper.run_command
  rw [h]

theorem scontrol_run_entity_error (path command : String) (options : Opts)
    (use_json : Bool)
    (exec : List String → ExecOutcome) (jloads : String → Except String Json)
    (f : Fatal) (hv : ScontrolHelper.validate_command command = .ok ())
    (h : ScontrolHelper.validateEntityForCommand command options = .error f) :
    ScontrolHelper.run_command path command options use_json exec jloads = .error f := by
  unfold ScontrolHelper.run_command
  rw [hv, h]

theorem scontrol_run_outcome (path command : String) (options : Opts) (use_json : Bool)
    (exec : List String → ExecOutcome) (jloads : String → Except String Json)
    (cmd : List String)
    (hv : ScontrolHelper.validate_command command = .ok ())
    (he : ScontrolHelper.validateEntityForCommand command options = .ok ())
    (hb : ScontrolHelper.build_command path command options use_json = .ok cmd) :
    ScontrolHelper.run_command path command options use_json exec jloads
      = match exec cmd with
        | .completed rc out err =>
          .ok (completeResult (ScontrolHelper.READONLY_COMMANDS.contains (pyLower command))
            use_json (ScontrolHelper.JSON_SUPPORTED_COMMANDS.contains (pyLower command))
            (String.intercalate " " cmd) jloads rc out err)
        | .timedOut =>
          .error (.failJson ("Command timed out after 300 seconds: " ++
            String.intercalate " " cmd))
        | .raised e => .error (.failJson ("Failed to execute command: " ++ e)) := by
  unfold ScontrolHelper.run_command
  rw [hv, he, hb]

theorem scontrol_json_cmds_eq (x : String) :
    ScontrolHelper.JSON_SUPPORTED_COMMANDS.contains x = (x == "show") := by
  cases h : (x == "show") <;>
    simp [ScontrolHelper.JSON_SUPPORTED_COMMANDS, List.contains, List.elem, h]

theorem scontrol_json_entities_empty :
    ScontrolHelper.JSON_SUPPORTED_ENTITIES.contains "" = false := rfl

theorem sacctmgr_build_shape (path command entity : String) (options : Opts)
    (use_json : Bool) (use_readonly : Option Bool) (l : List String)
    (h : SacctmgrHelper.build_command path command entity options use_json use_readonly
          = .ok l) :
    ∃ toks, optTokens options = .ok toks ∧
      l = [path, "--immediate"]
        ++ (if SacctmgrHelper.effectiveReadonly command use_readonly then ["--readonly"] else [])
        ++ (if use_json && SacctmgrHelper.JSON_SUPPORTED_COMMANDS.contains (pyLower command)
            then ["--json"] else [])
        ++ [command, entity] ++ toks := by
  unfold SacctmgrHelper.build_command at h
  rw [appendOpts_ok_iff] at h
  obtain ⟨toks, h1, h2⟩ := h
  refine ⟨toks, h1, ?_⟩
  subst h2
  cases hr : SacctmgrHelper.effectiveReadonly command use_readonly <;>
    cases hj : (use_json && SacctmgrHelper.JSON_SUPPORTED_COMMANDS.contains
        (pyLower command)) <;>
      simp [hr, hj]

theorem scontrol_entity_of_firstToken (options : Opts) (ent : Option String)
    (ht : options.truthy = true)
    (h : ScontrolHelper.firstToken options = .ok ent) :
    scontrolEntityForJson options = ent.map pyLower := by
  cases options with
  | none => simp [Opts.truthy] at ht
  | other =>
    simp [ScontrolHelper.firstToken] at h
    subst h
    rfl
  | list l =>
    simp [ScontrolHelper.firstToken] at h
    subst h
    rfl
  | str s =>
    cases hs : pySplit s with
    | nil => simp [ScontrolHelper.firstToken, hs] at h
    | cons t rest =>
      simp only [ScontrolHelper.firstToken, hs, Except.ok.injEq] at h
      subst h
      simp [scontrolEntityForJson, hs]

theorem scontrol_truthy_false_entity (options : Opts) (ht : options.truthy = false)
    (hother : options ≠ Opts.other) :
    scontrolEntityForJson options = Option.none := by
  cases options with
  | none => rfl
  | other => exact absurd rfl hother
  | str s =>
    have hs : s = "" := by simpa [Opts.truthy] using ht
    subst hs; rfl
  | list l0 =>
    have hl : l0 = [] := by simpa [Opts.truthy, List.isEmpty_iff] using ht
    subst hl; rfl

theorem scontrol_jsonFlagBlock_shape (path command : String) (options : Opts)
    (use_json : Bool) (l : List String)
    (h : ScontrolHelper.jsonFlagBlock path command options use_json = .ok l) :
    l = [path] ++ (if scontrolJsonCondSpec command options use_json then ["--json"] else []) := by
  unfold ScontrolHelper.jsonFlagBlock at h
  unfold scontrolJsonCondSpec
  cases hu : (use_json && ScontrolHelper.JSON_SUPPORTED_COMMANDS.contains
      (pyLower command)) with
  | false =>
    rw [if_neg (show ¬((use_json && ScontrolHelper.JSON_SUPPORTED_COMMANDS.contains
        (pyLower command)) = true) from by rw [hu]; exact Bool.false_ne_true)] at h
    simp only [Except.ok.injEq] at h
    subst h
    simp
  | true =>
    rw [if_pos hu] at h
    have hshow : (pyLower command == "show") = true := by
      have hu2 := hu
      rw [Bool.and_eq_true] at hu2
      rw [← scontrol_json_cmds_eq]
      exact hu2.2
    cases ht : options.truthy with
    | false =>
      rw [if_neg (by simp [ht])] at h
      simp only [Except.ok.injEq] at h
      subst h
      have hother : options ≠ Opts.other := by
        intro hq; subst hq; simp [Opts.truthy] at ht
      rw [scontrol_truthy_false_entity options ht hother]
      simp
    | true =>
      rw [if_pos (show ((pyLower command == "show") && options.truthy) = true by
        simp [hshow, ht])] at h
      cases hf : ScontrolHelper.firstToken options with
      | error f => rw [hf] at h; exact absurd h (by simp)
      | ok ent =>
        rw [hf] at h
        have hE := scontrol_entity_of_firstToken options ent ht hf
        cases ent with
        | none =>
          have h2 : (Except.ok [path] : Except Fatal (List String)) = Except.ok l := h
          simp only [Except.ok.injEq] at h2
          subst h2
          have hE2 : scontrolEntityForJson options = Option.none := hE
          rw [hE2]
          simp
        | some e0 =>
          have h2 : (if ((pyLower e0 != "") &&
              ScontrolHelper.JSON_SUPPORTED_ENTITIES.contains (pyLower e0)) = true then
                (Except.ok [path, "--json"] : Except Fatal (List String))
              else Except.ok [path]) = Except.ok l := h
          have hE2 : scontrolEntityForJson options = some (pyLower e0) := hE
          rw [hE2]
          cases hc : ((pyLower e0 != "") &&
              ScontrolHelper.JSON_SUPPORTED_ENTITIES.contains (pyLower e0)) with
          | true =>
            rw [if_pos hc] at h2
            simp only [Except.ok.injEq] at h2
            subst h2
            have hc2 := hc
            rw [Bool.and_eq_true] at hc2
            show [path, "--json"] = [path] ++
              if ((true : Bool) &&
                  ScontrolHelper.JSON_SUPPORTED_ENTITIES.contains (pyLower e0)) = true then
                ["--json"] else []
            rw [hc2.2]
            simp
          | false =>
            rw [if_neg (show ¬(((pyLower e0 != "") &&
                ScontrolHelper.JSON_SUPPORTED_ENTITIES.contains (pyLower e0)) = true) from by
              rw [hc]; exact Bool.false_ne_true)] at h2
            simp only [Except.ok.injEq] at h2
            subst h2
            have hcont : ScontrolHelper.JSON_SUPPORTED_ENTITIES.contains (pyLower e0)
                = false := by
              cases hA : (pyLower e0 == "") with
              | true =>
                have he0 : pyLower e0 = "" := eq_of_beq hA
                rw [he0]
                exact scontrol_json_entities_empty
              | false =>
                have hne : (pyLower e0 != "") = true := by simp [bne, hA]
                rcases Bool.and_eq_false_iff.mp hc with h1 | h2
                · exact absurd hne (by simp [h1])
                · exact h2
            show [path] = [path] ++
              if ((true : Bool) &&
                  ScontrolHelper.JSON_SUPPORTED_ENTITIES.contains (pyLower e0)) = true then
                ["--json"] else []
            rw [hcont]
            simp

theorem scontrol_build_shape (path command : String) (options : Opts) (use_json : Bool)
    (l : List String)
    (h : ScontrolHelper.build_command path command options use_json = .ok l) :
    ∃ toks, optTokens options = .ok toks ∧
      l = [path] ++ (if scontrolJsonCondSpec command options use_json then ["--json"] else [])
        ++ [command] ++ toks := by
  unfold ScontrolHelper.build_command at h
  cases hf : ScontrolHelper.jsonFlagBlock path command options use_json with
  | error f => rw [hf] at h; exact absurd h (by simp)
  | ok front =>
    rw [hf] at h
    rw [appendOpts_ok_iff] at h
    obtain ⟨toks, h1, h2⟩ := h
    refine ⟨toks, h1, ?_⟩
    subst h2
    rw [scontrol_jsonFlagBlock_shape path command options use_json front hf]

theorem contains_true_iff_mem (l : List String) (a : String) : l.contains a = true ↔ a ∈ l :=
  ⟨List.mem_of_elem_eq_true, List.elem_eq_true_of_mem⟩

theorem contains_false_iff_not_mem (l : List String) (a : String) :
    l.contains a = false ↔ a ∉ l := by
  constructor
  · intro h hm
    rw [(contains_true_iff_mem l a).mpr hm] at h
    exact Bool.noConfusion h
  · intro h
    cases hc : l.contains a with
    | false => rfl
    | true => exact absurd ((contains_true_iff_mem l a).mp hc) h

theorem sacctmgr_validate_command_ok (command : String)
    (h : SacctmgrHelper.VALID_COMMANDS.contains (pyLower command) = true) :
    SacctmgrHelper.validate_command command = .ok () := by
  simp [SacctmgrHelper.validate_command, h]
  exact (contains_true_iff_mem _ _).mp h

theorem sacctmgr_validate_command_reject (command : String)
    (h : SacctmgrHelper.VALID_COMMANDS.contains (pyLower command) = false) :
    SacctmgrHelper.validate_command command
      = .error (.failJson ("Invalid sacctmgr command: " ++ command ++
          ". Valid commands are: " ++
          String.intercalate ", " SacctmgrHelper.VALID_COMMANDS)) := by
  simp [SacctmgrHelper.validate_command, h]
  exact (contains_false_iff_not_mem _ _).mp h

theorem sacctmgr_validate_entity_reject (entity : String)
    (h : SacctmgrHelper.VALID_ENTITIES.contains (pyLower entity) = false) :
    SacctmgrHelper.validate_entity entity
      = .error (.failJson ("Invalid sacctmgr entity: " ++ entity ++
          ". Valid entities are: " ++
          String.intercalate ", " SacctmgrHelper.VALID_ENTITIES)) := by
  simp [SacctmgrHelper.validate_entity, h]
  exact (contains_false_iff_not_mem _ _).mp h

theorem scontrol_validate_command_ok (command : String)
    (h : ScontrolHelper.VALID_COMMANDS.contains (pyLower command) = true) :
    ScontrolHelper.validate_command command = .ok () := by
  simp [ScontrolHelper.validate_command, h]
  exact (contains_true_iff_mem _ _).mp h

theorem scontrol_validate_command_reject (command : String)
    (h : ScontrolHelper.VALID_COMMANDS.contains (pyLower command) = false) :
    ScontrolHelper.validate_command command
      = .error (.failJson ("Invalid scontrol command: " ++ command ++
          ". Valid commands are: " ++
          String.intercalate ", " ScontrolHelper.VALID_COMMANDS)) := by
  simp [ScontrolHelper.validate_command, h]
  exact (contains_false_iff_not_mem _ _).mp h

theorem scontrol_validateEntity_skip (command : String) (options : Opts)
    (h1 : pyLower command ≠ "show") (h2 : pyLower command ≠ "update")
    (h3 : pyLower command ≠ "create") (h4 : pyLower command ≠ "delete") :
    ScontrolHelper.validateEntityForCommand command options = .ok () := by
  unfold ScontrolHelper.validateEntityForCommand
  rw [if_neg (show ¬(((pyLower command == "show") && options.truthy) = true) from by
        simp [h1]),
      if_neg (show ¬(((pyLower command == "update") && options.truthy) = true) from by
        simp [h2]),
      if_neg (show ¬(((pyLower command == "create") && options.truthy) = true) from by
        simp [h3]),
      if_neg (show ¬(((pyLower command == "delete") && options.truthy) = true) from by
        simp [h4])]

theorem scontrol_validateEntity_show_reject (command : String) (options : Opts)
    (entity : String)
    (hcmd : pyLower command = "show") (ht : options.truthy = true)
    (hf : ScontrolHelper.firstToken options = .ok (some entity)) (hne : entity ≠ "")
    (hinv : ScontrolHelper.SHOW_ENTITIES.contains (pyLower entity) = false) :
    ScontrolHelper.validateEntityForCommand command options
      = .error (.failJson ("Invalid show entity: " ++ entity ++
          ". Valid entities are: " ++ String.intercalate ", " ScontrolHelper.SHOW_ENTITIES)) := by
  unfold ScontrolHelper.validateEntityForCommand
  rw [if_pos (show ((pyLower command == "show") && options.truthy) = true from by
    simp [hcmd, ht])]
  rw [hf]
  show (if (entity != "") = true then ScontrolHelper.validate_show_entity entity
        else .ok ()) = _
  rw [if_pos (bne_iff_ne.mpr hne)]
  simp [ScontrolHelper.validate_show_entity, hinv]
  exact (contains_false_iff_not_mem _ _).mp hinv

theorem scontrol_validateEntity_update_reject (command : String) (options : Opts)
    (entity : String)
    (hcmd : pyLower command = "update") (ht : options.truthy = true)
    (hf : ScontrolHelper.firstToken options = .ok (some entity)) (hne : entity ≠ "")
    (hinv : ScontrolHelper.UPDATE_ENTITIES.contains (pyLower entity) = false) :
    ScontrolHelper.validateEntityForCommand command options
      = .error (.failJson ("Invalid update entity: " ++ entity ++
          ". Valid entities are: " ++
          String.intercalate ", " ScontrolHelper.UPDATE_ENTITIES)) := by
  unfold ScontrolHelper.validateEntityForCommand
  rw [if_neg (show ¬(((pyLower command == "show") && options.truthy) = true) from by
    simp [hcmd])]
  rw [if_pos (show ((pyLower command == "update") && options.truthy) = true from by
    simp [hcmd, ht])]
  rw [hf]
  show (if (entity != "") = true then ScontrolHelper.validate_update_entity entity
        else .ok ()) = _
  rw [if_pos (bne_iff_ne.mpr hne)]
  simp [ScontrolHelper.validate_update_entity, hinv]
  exact (contains_false_iff_not_mem _ _).mp hinv

theorem scontrol_validateEntity_create_reject (command : String) (options : Opts)
    (entity : String)
    (hcmd : pyLower command = "create") (ht : options.truthy = true)
    (hf : ScontrolHelper.firstToken options = .ok (some entity)) (hne : entity ≠ "")
    (hinv : ScontrolHelper.CREATE_ENTITIES.contains (pyLower entity) = false) :
    ScontrolHelper.validateEntityForCommand command options
      = .error (.failJson ("Invalid create entity: " ++ entity ++
          ". Valid entities are: " ++
          String.intercalate ", " ScontrolHelper.CREATE_ENTITIES)) := by
  unfold ScontrolHelper.validateEntityForCommand
  rw [if_neg (show ¬(((pyLower command == "show") && options.truthy) = true) from by
    simp [hcmd])]
  rw [if_neg (show ¬(((pyLower command == "update") && options.truthy) = true) from by
    simp [hcmd])]
  rw [if_pos (show ((pyLower command == "create") && options.truthy) = true from by
    simp [hcmd, ht])]
  rw [hf]
  show (if (entity != "") = true then ScontrolHelper.validate_create_entity entity
        else .ok ()) = _
  rw [if_pos (bne_iff_ne.mpr hne)]
  simp [ScontrolHelper.validate_create_entity, hinv]
  exact (contains_false_iff_not_mem _ _).mp hinv

theorem scontrol_validateEntity_delete_reject (command : String) (options : Opts)
    (entity : String)
    (hcmd : pyLower command = "delete") (ht : options.truthy = true)
    (hf : ScontrolHelper.firstToken options = .ok (some entity)) (hne : entity ≠ "")
    (hinv : ScontrolHelper.DELETE_ENTITIES.contains (pyLower entity) = false) :
    ScontrolHelper.validateEntityForCommand command options
      = .error (.failJson ("Invalid delete entity: " ++ entity ++
          ". Valid entities are: " ++
          String.intercalate ", " ScontrolHelper.DELETE_ENTITIES)) := by
  unfold ScontrolHelper.validateEntityForCommand
  rw [if_neg (show ¬(((pyLower command == "show") && options.truthy) = true) from by
    simp [hcmd])]
  rw [if_neg (show ¬(((pyLower command == "update") && options.truthy) = true) from by
    simp [hcmd])]
  rw [if_neg (show ¬(((pyLower command == "create") && options.truthy) = true) from by
    simp [hcmd])]
  rw [if_pos (show ((pyLower command == "delete") && options.truthy) = true from by
    simp [hcmd, ht])]
  rw [hf]
  show (if (entity != "") = true then ScontrolHelper.validate_delete_entity entity
        else .ok ()) = _
  rw [if_pos (bne_iff_ne.mpr hne)]
  simp [ScontrolHelper.validate_delete_entity, hinv]
  exact (contains_false_iff_not_mem _ _).mp hinv

theorem scontrol_build_list_plain (path command : String) (opts : List String)
    (use_json : Bool)
    (h : ScontrolHelper.JSON_SUPPORTED_COMMANDS.contains (pyLower command) = false) :
    ScontrolHelper.build_command path command (Opts.list opts) use_json
      = .ok (path :: command :: opts) := by
  unfold ScontrolHelper.build_command ScontrolHelper.jsonFlagBlock
  rw [if_neg (show ¬((use_json && ScontrolHelper.JSON_SUPPORTED_COMMANDS.contains
      (pyLower command)) = true) from fun hcontra => by
        rw [Bool.and_eq_true] at hcontra
        rw [hcontra.2] at h
        exact Bool.noConfusion h)]
  show appendOpts ([path] ++ [command]) (Opts.list opts) = .ok (path :: command :: opts)
  simp [appendOpts, optTokens_list]

/-- C1: on the sacctmgr gateway, a show request on the account entity with the
already-tokenized options ["name=test"] and the default JSON and readonly
settings builds exactly the vector
[path, "--immediate", "--readonly", "--json", "show", "account", "name=test"],
and every Result returned for this request has changed = false. -/
theorem c1_show_account_vector (path : String) (exec : List String → ExecOutcome)
    (jloads : String → Except String Json) :
    SacctmgrHelper.build_command path "show" "account" (Opts.list ["name=test"]) true Option.none
      = .ok [path, "--immediate", "--readonly", "--json", "show", "account", "name=test"] ∧
    ∀ r, SacctmgrHelper.run_command path "show" "account" (Opts.list ["name=test"]) true
        Option.none exec jloads = .ok r → r.changed = false := by
  constructor
  · rfl
  · intro r h
    rcases (sacctmgr_run_ok_iff _ _ _ _ _ _ _ _ _).mp h with
      ⟨_, _, cmd, _, rc, out, err, _, hr⟩
    subst hr
    rw [completeResult_changed]
    rw [show SacctmgrHelper.effectiveReadonly "show" Option.none = true from rfl]
    simp

/-- Witness for C1 at a concrete path and a concrete completed execution. -/
theorem c1_show_account_vector_witness :
    SacctmgrHelper.run_command "/usr/bin/sacctmgr" "show" "account" (Opts.list ["name=test"])
        true Option.none (fun _ => ExecOutcome.completed 0 "" "")
        (fun _ => Except.error "no json") = .ok
      { success := true, stdout := "", stderr := "", data := Option.none, changed := false,
        command := "/usr/bin/sacctmgr --immediate --readonly --json show account name=test",
        json_parse_error := Option.none } ∧
    RunResult.changed
      { success := true, stdout := "", stderr := "", data := Option.none, changed := false,
        command := "/usr/bin/sacctmgr --immediate --readonly --json show account name=test",
        json_parse_error := Option.none } = false :=
  ⟨rfl, (c1_show_account_vector "/usr/bin/sacctmgr" (fun _ => ExecOutcome.completed 0 "" "")
      (fun _ => Except.error "no json")).2 _ rfl⟩

/-- C4: for every executed request that returns a Result, on either tool, the
changed flag equals (success AND NOT effective readonly status); hence it is
false whenever the effective readonly status holds, false whenever the exit
code was nonzero, and true exactly when the run succeeded on a non-readonly
request. -/
theorem c4_changed_flag :
    (∀ path command entity options use_json use_readonly
        (exec : List String → ExecOutcome) (jloads : String → Except String Json) r,
      SacctmgrHelper.run_command path command entity options use_json use_readonly exec jloads
        = .ok r →
      r.changed = (r.success && !SacctmgrHelper.effectiveReadonly command use_readonly)) ∧
    (∀ path command options use_json
        (exec : List String → ExecOutcome) (jloads : String → Except String Json) r,
      ScontrolHelper.run_command path command options use_json exec jloads = .ok r →
      r.changed
        = (r.success && !(ScontrolHelper.READONLY_COMMANDS.contains (pyLower command)))) := by
  constructor
  · intro path command entity options use_json use_readonly exec jloads r h
    rcases (sacctmgr_run_ok_iff _ _ _ _ _ _ _ _ _).mp h with
      ⟨_, _, cmd, _, rc, out, err, _, hr⟩
    subst hr
    rw [completeResult_changed, completeResult_success]
  · intro path command options use_json exec jloads r h
    rcases (scontrol_run_ok_iff _ _ _ _ _ _ _).mp h with
      ⟨_, _, cmd, _, rc, out, err, _, hr⟩
    subst hr
    rw [completeResult_changed, completeResult_success]

/-- Witness for C4: a successful non-readonly sacctmgr add reports
changed = true, matching success AND NOT readonly. -/
theorem c4_changed_flag_witness :
    SacctmgrHelper.run_command "/usr/bin/sacctmgr" "add" "account" Opts.none false Option.none
        (fun _ => ExecOutcome.completed 0 "ok" "") (fun _ => Except.error "x") = .ok
      { success := true, stdout := "ok", stderr := "", data := Option.none, changed := true,
        command := "/usr/bin/sacctmgr --immediate add account",
        json_parse_error := Option.none } ∧
    RunResult.changed
      { success := true, stdout := "ok", stderr := "", data := Option.none, changed := true,
        command := "/usr/bin/sacctmgr --immediate add account",
        json_parse_error := Option.none }
      = (RunResult.success
          { success := true, stdout := "ok", stderr := "", data := Option.none, changed := true,
            command := "/usr/bin/sacctmgr --immediate add account",
            json_parse_error := Option.none }
        && !SacctmgrHelper.effectiveReadonly "add" Option.none) :=
  ⟨rfl, c4_changed_flag.1 "/usr/bin/sacctmgr" "add" "account" Opts.none false Option.none
    (fun _ => ExecOutcome.completed 0 "ok" "") (fun _ => Except.error "x") _ rfl⟩

/-- C7: on either tool, a subprocess that exceeds the 300-second bound is
reported as the fatal timeout condition carrying the joined command line, and
no Result is returned. -/
theorem c7_timeout_fatal :
    (∀ path command entity options use_json use_readonly
        (jloads : String → Except String Json) cmd,
      SacctmgrHelper.validate_command command = .ok () →
      SacctmgrHelper.validate_entity entity = .ok () →
      SacctmgrHelper.build_command path command entity options use_json use_readonly = .ok cmd →
      SacctmgrHelper.run_command path command entity options use_json use_readonly
          (fun _ => ExecOutcome.timedOut) jloads
        = .error (.failJson ("Command timed out after 300 seconds: " ++
            String.intercalate " " cmd))) ∧
    (∀ path command options use_json (jloads : String → Except String Json) cmd,
      ScontrolHelper.validate_command command = .ok () →
      ScontrolHelper.validateEntityForCommand command options = .ok () →
      ScontrolHelper.build_command path command options use_json = .ok cmd →
      ScontrolHelper.run_command path command options use_json
          (fun _ => ExecOutcome.timedOut) jloads
        = .error (.failJson ("Command timed out after 300 seconds: " ++
            String.intercalate " " cmd))) := by
  constructor
  · intro path command entity options use_json use_readonly jloads cmd hv he hb
    rw [sacctmgr_run_outcome path command entity options use_json use_readonly _ jloads cmd
      hv he hb]
  · intro path command options use_json jloads cmd hv he hb
    rw [scontrol_run_outcome path command options use_json _ jloads cmd hv he hb]

/-- Witness for C7 at a concrete sacctmgr show request. -/
theorem c7_timeout_fatal_witness :
    SacctmgrHelper.validate_command "show" = .ok () ∧
    SacctmgrHelper.validate_entity "account" = .ok () ∧
    SacctmgrHelper.build_command "/usr/bin/sacctmgr" "show" "account" Opts.none true Option.none
      = .ok ["/usr/bin/sacctmgr", "--immediate", "--readonly", "--json", "show", "account"] ∧
    SacctmgrHelper.run_command "/usr/bin/sacctmgr" "show" "account" Opts.none true Option.none
        (fun _ => ExecOutcome.timedOut) (fun _ => Except.error "x")
      = .error (.failJson ("Command timed out after 300 seconds: " ++ String.intercalate " "
          ["/usr/bin/sacctmgr", "--immediate", "--readonly", "--json", "show", "account"])) :=
  ⟨rfl, rfl, rfl, c7_timeout_fatal.1 "/usr/bin/sacctmgr" "show" "account" Opts.none true
    Option.none (fun _ => Except.error "x")
    ["/usr/bin/sacctmgr", "--immediate", "--readonly", "--json", "show", "account"]
    rfl rfl rfl⟩

/-- C10: on either tool, run_command always lands in one of the two channels
(an ordinary Result or a fatal signal), and any exception raised during
subprocess execution other than a timeout is converted into the fatal
"Failed to execute command" condition. -/
theorem c10_exception_channels :
    (∀ path command entity options use_json use_readonly
        (exec : List String → ExecOutcome) (jloads : String → Except String Json),
      (∃ r, SacctmgrHelper.run_command path command entity options use_json use_readonly
          exec jloads = .ok r) ∨
      (∃ f, SacctmgrHelper.run_command path command entity options use_json use_readonly
          exec jloads = .error f)) ∧
    (∀ path command entity options use_json use_readonly
        (jloads : String → Except String Json) e cmd,
      SacctmgrHelper.validate_command command = .ok () →
      SacctmgrHelper.validate_entity entity = .ok () →
      SacctmgrHelper.build_command path command entity options use_json use_readonly = .ok cmd →
      SacctmgrHelper.run_command path command entity options use_json use_readonly
          (fun _ => ExecOutcome.raised e) jloads
        = .error (.failJson ("Failed to execute command: " ++ e))) ∧
    (∀ path command options use_json
        (exec : List String → ExecOutcome) (jloads : String → Except String Json),
      (∃ r, ScontrolHelper.run_command path command options use_json exec jloads = .ok r) ∨
      (∃ f, ScontrolHelper.run_command path command options use_json exec jloads = .error f)) ∧
    (∀ path command options use_json (jloads : String → Except String Json) e cmd,
      ScontrolHelper.validate_command command = .ok () →
      ScontrolHelper.validateEntityForCommand command options = .ok () →
      ScontrolHelper.build_command path command options use_json = .ok cmd →
      ScontrolHelper.run_command path command options use_json
          (fun _ => ExecOutcome.raised e) jloads
        = .error (.failJson ("Failed to execute command: " ++ e))) := by
  refine ⟨?_, ?_, ?_, ?_⟩
  · intro path command entity options use_json use_readonly exec jloads
    cases h : SacctmgrHelper.run_command path command entity options use_json use_readonly
        exec jloads with
    | ok r => exact Or.inl ⟨r, rfl⟩
    | error f => exact Or.inr ⟨f, rfl⟩
  · intro path command entity options use_json use_readonly jloads e cmd hv he hb
    rw [sacctmgr_run_outcome path command entity options use_json use_readonly _ jloads cmd
      hv he hb]
  · intro path command options use_json exec jloads
    cases h : ScontrolHelper.run_command path command options use_json exec jloads with
    | ok r => exact Or.inl ⟨r, rfl⟩
    | error f => exact Or.inr ⟨f, rfl⟩
  · intro path command options use_json jloads e cmd hv he hb
    rw [scontrol_run_outcome path command options use_json _ jloads cmd hv he hb]

/-- Witness for C10: a concrete launch failure on scontrol is converted into
the fatal "Failed to execute command" condition. -/
theorem c10_exception_channels_witness :
    ScontrolHelper.validate_command "ping" = .ok () ∧
    ScontrolHelper.validateEntityForCommand "ping" Opts.none = .ok () ∧
    ScontrolHelper.build_command "/usr/bin/scontrol" "ping" Opts.none true
      = .ok ["/usr/bin/scontrol", "ping"] ∧
    ScontrolHelper.run_command "/usr/bin/scontrol" "ping" Opts.none true
        (fun _ => ExecOutcome.raised "Permission denied") (fun _ => Except.error "x")
      = .error (.failJson ("Failed to execute command: " ++ "Permission denied")) :=
  ⟨rfl, rfl, rfl, c10_exception_channels.2.2.2 "/usr/bin/scontrol" "ping" Opts.none true
    (fun _ => Except.error "x") "Permission denied" ["/usr/bin/scontrol", "ping"]
    rfl rfl rfl⟩

/-- C2 counterexample: on scontrol show with a whitespace-only options string
no entity token can be extracted, and instead of omitting the JSON flag without
error the gateway raises an uncaught IndexError while building the command. -/
theorem c2_json_flag_counterexample :
    ScontrolHelper.build_command "/usr/bin/scontrol" "show" (Opts.str "   ") true
      = .error (.pyError "IndexError" "list index out of range") := rfl

/-- C2 amended: whenever a vector is built, the JSON flag occupies exactly the
claimed position under the claimed condition: for sacctmgr JSON requested and
verb JSON-capable; for scontrol additionally the first options token names a
JSON-capable entity, absence of such a token omitting the flag. The exception
forced by the counterexample: a whitespace-only options string makes scontrol
entity extraction raise an IndexError instead of omitting the flag, so no
vector is built there. -/
theorem c2_json_flag_amended :
    (∀ path command entity options use_json use_readonly l,
      SacctmgrHelper.build_command path command entity options use_json use_readonly = .ok l →
      ∃ toks, optTokens options = .ok toks ∧
        l = [path, "--immediate"]
          ++ (if SacctmgrHelper.effectiveReadonly command use_readonly
              then ["--readonly"] else [])
          ++ (if use_json && SacctmgrHelper.JSON_SUPPORTED_COMMANDS.contains (pyLower command)
              then ["--json"] else [])
          ++ [command, entity] ++ toks) ∧
    (∀ path command options use_json l,
      ScontrolHelper.build_command path command options use_json = .ok l →
      ∃ toks, optTokens options = .ok toks ∧
        l = [path]
          ++ (if scontrolJsonCondSpec command options use_json then ["--json"] else [])
          ++ [command] ++ toks) := by
  constructor
  · intro path command entity options use_json use_readonly l h
    exact sacctmgr_build_shape path command entity options use_json use_readonly l h
  · intro path command options use_json l h
    exact scontrol_build_shape path command options use_json l h

/-- Witness for C2 at a concrete scontrol show job request. -/
theorem c2_json_flag_witness :
    ScontrolHelper.build_command "/usr/bin/scontrol" "show" (Opts.list ["job"]) true
      = .ok ["/usr/bin/scontrol", "--json", "show", "job"] ∧
    ∃ toks, optTokens (Opts.list ["job"]) = .ok toks ∧
      ["/usr/bin/scontrol", "--json", "show", "job"] = ["/usr/bin/scontrol"]
        ++ (if scontrolJsonCondSpec "show" (Opts.list ["job"]) true then ["--json"] else [])
        ++ ["show"] ++ toks :=
  ⟨rfl, c2_json_flag_amended.2 "/usr/bin/scontrol" "show" (Opts.list ["job"]) true _ rfl⟩

/-- C3 counterexample: scontrol show is effectively readonly, yet the built
vector holds no readonly flag at all; the scontrol gateway never injects one,
contradicting the claimed presence-iff-readonly on either tool. -/
theorem c3_readonly_flag_counterexample :
    ScontrolHelper.READONLY_COMMANDS.contains (pyLower "show") = true ∧
    ScontrolHelper.build_command "/usr/bin/scontrol" "show" (Opts.list ["job"]) true
      = .ok ["/usr/bin/scontrol", "--json", "show", "job"] ∧
    (["/usr/bin/scontrol", "--json", "show", "job"].contains "--readonly") = false :=
  ⟨rfl, rfl, rfl⟩

/-- C3 amended: on sacctmgr the readonly flag is present exactly when the
effective readonly status holds (caller override if given, else verb
membership in the readonly set); the scontrol gateway injects no readonly flag
at all, its built vector being path, optional JSON flag, verb, options. -/
theorem c3_readonly_flag_amended :
    (∀ path command entity options use_json use_readonly l,
      SacctmgrHelper.build_command path command entity options use_json use_readonly = .ok l →
      ∃ toks, optTokens options = .ok toks ∧
        l = [path, "--immediate"]
          ++ (if SacctmgrHelper.effectiveReadonly command use_readonly
              then ["--readonly"] else [])
          ++ (if use_json && SacctmgrHelper.JSON_SUPPORTED_COMMANDS.contains (pyLower command)
              then ["--json"] else [])
          ++ [command, entity] ++ toks) ∧
    (∀ path command options use_json l,
      ScontrolHelper.build_command path command options use_json = .ok l →
      ∃ toks jseg, optTokens options = .ok toks ∧ (jseg = [] ∨ jseg = ["--json"]) ∧
        l = [path] ++ jseg ++ [command] ++ toks) := by
  constructor
  · intro path command entity options use_json use_readonly l h
    exact sacctmgr_build_shape path command entity options use_json use_readonly l h
  · intro path command options use_json l h
    obtain ⟨toks, h1, h2⟩ := scontrol_build_shape path command options use_json l h
    refine ⟨toks, _, h1, ?_, h2⟩
    by_cases hs : scontrolJsonCondSpec command options use_json = true <;> simp [hs]

/-- Witness for C3: a sacctmgr add request (effective readonly false) builds a
vector with no readonly flag in the claimed shape. -/
theorem c3_readonly_flag_witness :
    SacctmgrHelper.build_command "/usr/bin/sacctmgr" "add" "account"
        (Opts.list ["name=test", "description=Test"]) false Option.none
      = .ok ["/usr/bin/sacctmgr", "--immediate", "add", "account",
             "name=test", "description=Test"] ∧
    ∃ toks, optTokens (Opts.list ["name=test", "description=Test"]) = .ok toks ∧
      ["/usr/bin/sacctmgr", "--immediate", "add", "account", "name=test", "description=Test"]
        = ["/usr/bin/sacctmgr", "--immediate"]
          ++ (if SacctmgrHelper.effectiveReadonly "add" Option.none then ["--readonly"] else [])
          ++ (if false && SacctmgrHelper.JSON_SUPPORTED_COMMANDS.contains (pyLower "add")
              then ["--json"] else [])
          ++ ["add", "account"] ++ toks :=
  ⟨rfl, c3_readonly_flag_amended.1 "/usr/bin/sacctmgr" "add" "account"
    (Opts.list ["name=test", "description=Test"]) false Option.none _ rfl⟩

/-- C5 counterexample: on scontrol show hostlist the entity does not support
JSON (no JSON flag is injected, the verb/entity combination is not
JSON-capable), yet decoding of stdout is still attempted and a decode
diagnostic is recorded: the decode guard consults only the verb. -/
theorem c5_decode_counterexample :
    ScontrolHelper.JSON_SUPPORTED_ENTITIES.contains "hostlist" = false ∧
    ScontrolHelper.run_command "/usr/bin/scontrol" "show" (Opts.list ["hostlist"]) true
        (fun _ => ExecOutcome.completed 0 "not json" "")
        (fun _ => Except.error "Expecting value: line 1 column 1 (char 0)")
      = .ok { success := true, stdout := "not json", stderr := "",
              data := Option.none, changed := false,
              command := "/usr/bin/scontrol show hostlist",
              json_parse_error := some "Expecting value: line 1 column 1 (char 0)" } :=
  ⟨rfl, rfl⟩

/-- C5 amended: decoding is attempted exactly when the run succeeded, JSON was
requested, the VERB is JSON-capable and trimmed stdout is non-empty - the
entity capability is not consulted at decode time; and a decode failure under
these conditions still returns a Result with success = true, no decoded
payload, and a populated decode diagnostic, raising no fatal error. -/
theorem c5_decode_amended :
    (∀ path command entity options use_json use_readonly
        (jloads : String → Except String Json) rc out err r,
      SacctmgrHelper.run_command path command entity options use_json use_readonly
          (fun _ => ExecOutcome.completed rc out err) jloads = .ok r →
      (decodeCond rc use_json (SacctmgrHelper.JSON_SUPPORTED_COMMANDS.contains
          (pyLower command)) out = false →
        r.data = Option.none ∧ r.json_parse_error = Option.none) ∧
      (∀ e, decodeCond rc use_json (SacctmgrHelper.JSON_SUPPORTED_COMMANDS.contains
          (pyLower command)) out = true →
        jloads out = .error e →
        r.success = true ∧ r.data = Option.none ∧ r.json_parse_error = some e)) ∧
    (∀ path command options use_json
        (jloads : String → Except String Json) rc out err r,
      ScontrolHelper.run_command path command options use_json
          (fun _ => ExecOutcome.completed rc out err) jloads = .ok r →
      (decodeCond rc use_json (ScontrolHelper.JSON_SUPPORTED_COMMANDS.contains
          (pyLower command)) out = false →
        r.data = Option.none ∧ r.json_parse_error = Option.none) ∧
      (∀ e, decodeCond rc use_json (ScontrolHelper.JSON_SUPPORTED_COMMANDS.contains
          (pyLower command)) out = true →
        jloads out = .error e →
        r.success = true ∧ r.data = Option.none ∧ r.json_parse_error = some e)) := by
  constructor
  · intro path command entity options use_json use_readonly jloads rc out err r h
    rcases (sacctmgr_run_ok_iff _ _ _ _ _ _ _ _ _).mp h with
      ⟨_, _, cmd, _, rc2, out2, err2, hexec, hr⟩
    injection hexec with h1 h2 h3
    subst h1; subst h2; subst h3
    subst hr
    constructor
    · intro hcond
      exact completeResult_no_decode _ _ _ _ _ _ _ _ hcond
    · intro e hcond he
      exact completeResult_decode_error _ _ _ _ _ _ _ _ e hcond he
  · intro path command options use_json jloads rc out err r h
    rcases (scontrol_run_ok_iff _ _ _ _ _ _ _).mp h with
      ⟨_, _, cmd, _, rc2, out2, err2, hexec, hr⟩
    injection hexec with h1 h2 h3
    subst h1; subst h2; subst h3
    subst hr
    constructor
    · intro hcond
      exact completeResult_no_decode _ _ _ _ _ _ _ _ hcond
    · intro e hcond he
      exact completeResult_decode_error _ _ _ _ _ _ _ _ e hcond he

/-- Witness for C5: a concrete sacctmgr show whose stdout is not JSON yields a
soft decode failure. -/
theorem c5_decode_witness :
    SacctmgrHelper.run_command "/usr/bin/sacctmgr" "show" "account" Opts.none true Option.none
        (fun _ => ExecOutcome.completed 0 "not json" "")
        (fun _ => Except.error "Expecting value") = .ok
      { success := true, stdout := "not json", stderr := "", data := Option.none,
        changed := false,
        command := "/usr/bin/sacctmgr --immediate --readonly --json show account",
        json_parse_error := some "Expecting value" } ∧
    decodeCond 0 true (SacctmgrHelper.JSON_SUPPORTED_COMMANDS.contains (pyLower "show"))
      "not json" = true ∧
    (fun (_ : String) => (Except.error "Expecting value" : Except String Json)) "not json"
      = .error "Expecting value" ∧
    (RunResult.success
        { success := true, stdout := "not json", stderr := "", data := Option.none,
          changed := false,
          command := "/usr/bin/sacctmgr --immediate --readonly --json show account",
          json_parse_error := some "Expecting value" } = true ∧
      RunResult.data
        { success := true, stdout := "not json", stderr := "", data := Option.none,
          changed := false,
          command := "/usr/bin/sacctmgr --immediate --readonly --json show account",
          json_parse_error := some "Expecting value" } = Option.none ∧
      RunResult.json_parse_error
        { success := true, stdout := "not json", stderr := "", data := Option.none,
          changed := false,
          command := "/usr/bin/sacctmgr --immediate --readonly --json show account",
          json_parse_error := some "Expecting value" } = some "Expecting value") :=
  ⟨rfl, rfl, rfl,
    (c5_decode_amended.1 "/usr/bin/sacctmgr" "show" "account" Opts.none true Option.none
      (fun _ => Except.error "Expecting value") 0 "not json" "" _ rfl).2
      "Expecting value" rfl rfl⟩

/-- C8 counterexample: on a valid scontrol ping request the token after the
resolved path is the verb itself, not a mandatory non-interactive flag; the
scontrol gateway has no mandatory flag. -/
theorem c8_mandatory_flag_counterexample :
    ScontrolHelper.VALID_COMMANDS.contains (pyLower "ping") = true ∧
    ScontrolHelper.build_command "/usr/bin/scontrol" "ping" Opts.none true
      = .ok ["/usr/bin/scontrol", "ping"] ∧
    ["/usr/bin/scontrol", "ping"].get? 1 = some "ping" ∧
    "ping".data.take 2 ≠ ['-', '-'] :=
  ⟨rfl, rfl, rfl, by decide⟩

/-- C8 amended: on sacctmgr the mandatory non-interactive flag "--immediate"
is always the first token after the resolved path; the scontrol gateway
injects no mandatory flag, the token following the path being the JSON flag
when injected and otherwise the verb itself. -/
theorem c8_mandatory_flag_amended :
    (∀ path command entity options use_json use_readonly l,
      SacctmgrHelper.build_command path command entity options use_json use_readonly = .ok l →
      l.get? 0 = some path ∧ l.get? 1 = some "--immediate") ∧
    (∀ path command options use_json l,
      ScontrolHelper.build_command path command options use_json = .ok l →
      l.get? 0 = some path ∧ (l.get? 1 = some "--json" ∨ l.get? 1 = some command)) := by
  constructor
  · intro path command entity options use_json use_readonly l h
    obtain ⟨toks, _, h2⟩ := sacctmgr_build_shape path command entity options use_json
      use_readonly l h
    subst h2
    exact ⟨rfl, rfl⟩
  · intro path command options use_json l h
    obtain ⟨toks, _, h2⟩ := scontrol_build_shape path command options use_json l h
    subst h2
    by_cases hs : scontrolJsonCondSpec command options use_json = true
    · rw [if_pos hs]
      exact ⟨rfl, Or.inl rfl⟩
    · rw [if_neg hs]
      exact ⟨rfl, Or.inr rfl⟩

/-- Witness for C8 at a concrete sacctmgr show request. -/
theorem c8_mandatory_flag_witness :
    SacctmgrHelper.build_command "/usr/bin/sacctmgr" "show" "account" Opts.none true Option.none
      = .ok ["/usr/bin/sacctmgr", "--immediate", "--readonly", "--json", "show", "account"] ∧
    (["/usr/bin/sacctmgr", "--immediate", "--readonly", "--json", "show",
        "account"].get? 0 = some "/usr/bin/sacctmgr" ∧
      ["/usr/bin/sacctmgr", "--immediate", "--readonly", "--json", "show",
        "account"].get? 1 = some "--immediate") :=
  ⟨rfl, c8_mandatory_flag_amended.1 "/usr/bin/sacctmgr" "show" "account" Opts.none true
    Option.none _ rfl⟩

/-- C6 counterexample: on scontrol show an empty-string first options token is
an entity outside the valid show set, yet entity validation is skipped for it,
the subprocess runs, and an ordinary Result is returned instead of the claimed
fatal rejection. -/
theorem c6_validation_counterexample :
    ScontrolHelper.SHOW_ENTITIES.contains "" = false ∧
    ScontrolHelper.run_command "/usr/bin/scontrol" "show" (Opts.list [""]) true
        (fun _ => ExecOutcome.completed 0 "" "") (fun _ => Except.error "x")
      = .ok { success := true, stdout := "", stderr := "", data := Option.none,
              changed := false, command := "/usr/bin/scontrol show ",
              json_parse_error := Option.none } :=
  ⟨rfl, rfl⟩

/-- C6 amended: invalid verbs are rejected on either tool with a message
enumerating the full verb set and without consulting the subprocess; a
sacctmgr entity outside the tool-wide set is likewise rejected with the full
entity set; on scontrol an entity is rejected with the applicable per-verb set
whenever the extracted first options token is non-empty - an empty-string
first token bypasses entity validation, as the counterexample shows. -/
theorem c6_validation_amended :
    (∀ path command entity options use_json use_readonly
        (exec : List String → ExecOutcome) (jloads : String → Except String Json),
      SacctmgrHelper.VALID_COMMANDS.contains (pyLower command) = false →
      SacctmgrHelper.run_command path command entity options use_json use_readonly exec jloads
        = .error (.failJson ("Invalid sacctmgr command: " ++ command ++
            ". Valid commands are: " ++
            String.intercalate ", " SacctmgrHelper.VALID_COMMANDS))) ∧
    (∀ path command entity options use_json use_readonly
        (exec : List String → ExecOutcome) (jloads : String → Except String Json),
      SacctmgrHelper.VALID_COMMANDS.contains (pyLower command) = true →
      SacctmgrHelper.VALID_ENTITIES.contains (pyLower entity) = false →
      SacctmgrHelper.run_command path command entity options use_json use_readonly exec jloads
        = .error (.failJson ("Invalid sacctmgr entity: " ++ entity ++
            ". Valid entities are: " ++
            String.intercalate ", " SacctmgrHelper.VALID_ENTITIES))) ∧
    (∀ path command options use_json
        (exec : List String → ExecOutcome) (jloads : String → Except String Json),
      ScontrolHelper.VALID_COMMANDS.contains (pyLower command) = false →
      ScontrolHelper.run_command path command options use_json exec jloads
        = .error (.failJson ("Invalid scontrol command: " ++ command ++
            ". Valid commands are: " ++
            String.intercalate ", " ScontrolHelper.VALID_COMMANDS))) ∧
    (∀ path command options use_json
        (exec : List String → ExecOutcome) (jloads : String → Except String Json) entity,
      pyLower command = "show" → options.truthy = true →
      ScontrolHelper.firstToken options = .ok (some entity) → entity ≠ "" →
      ScontrolHelper.SHOW_ENTITIES.contains (pyLower entity) = false →
      ScontrolHelper.run_command path command options use_json exec jloads
        = .error (.failJson ("Invalid show entity: " ++ entity ++
            ". Valid entities are: " ++
            String.intercalate ", " ScontrolHelper.SHOW_ENTITIES))) ∧
    (∀ path command options use_json
        (exec : List String → ExecOutcome) (jloads : String → Except String Json) entity,
      pyLower command = "update" → options.truthy = true →
      ScontrolHelper.firstToken options = .ok (some entity) → entity ≠ "" →
      ScontrolHelper.UPDATE_ENTITIES.contains (pyLower entity) = false →
      ScontrolHelper.run_command path command options use_json exec jloads
        = .error (.failJson ("Invalid update entity: " ++ entity ++
            ". Valid entities are: " ++
            String.intercalate ", " ScontrolHelper.UPDATE_ENTITIES))) ∧
    (∀ path command options use_json
        (exec : List String → ExecOutcome) (jloads : String → Except String Json) entity,
      pyLower command = "create" → options.truthy = true →
      ScontrolHelper.firstToken options = .ok (some entity) → entity ≠ "" →
      ScontrolHelper.CREATE_ENTITIES.contains (pyLower entity) = false →
      ScontrolHelper.run_command path command options use_json exec jloads
        = .error (.failJson ("Invalid create entity: " ++ entity ++
            ". Valid entities are: " ++
            String.intercalate ", " ScontrolHelper.CREATE_ENTITIES))) ∧
    (∀ path command options use_json
        (exec : List String → ExecOutcome) (jloads : String → Except String Json) entity,
      pyLower command = "delete" → options.truthy = true →
      ScontrolHelper.firstToken options = .ok (some entity) → entity ≠ "" →
      ScontrolHelper.DELETE_ENTITIES.contains (pyLower entity) = false →
      ScontrolHelper.run_command path command options use_json exec jloads
        = .error (.failJson ("Invalid delete entity: " ++ entity ++
            ". Valid entities are: " ++
            String.intercalate ", " ScontrolHelper.DELETE_ENTITIES))) := by
  refine ⟨?_, ?_, ?_, ?_, ?_, ?_, ?_⟩
  · intro path command entity options use_json use_readonly exec jloads h
    exact sacctmgr_run_validate_error path command entity options use_json use_readonly
      exec jloads _ (sacctmgr_validate_command_reject command h)
  · intro path command entity options use_json use_readonly exec jloads hv h
    exact sacctmgr_run_entity_error path command entity options use_json use_readonly
      exec jloads _ (sacctmgr_validate_command_ok command hv)
      (sacctmgr_validate_entity_reject entity h)
  · intro path command options use_json exec jloads h
    exact scontrol_run_validate_error path command options use_json exec jloads _
      (scontrol_validate_command_reject command h)
  · intro path command options use_json exec jloads entity hcmd ht hf hne hinv
    refine scontrol_run_entity_error path command options use_json exec jloads _
      (scontrol_validate_command_ok command (by rw [hcmd]; rfl)) ?_
    exact scontrol_validateEntity_show_reject command options entity hcmd ht hf hne hinv
  · intro path command options use_json exec jloads entity hcmd ht hf hne hinv
    refine scontrol_run_entity_error path command options use_json exec jloads _
      (scontrol_validate_command_ok command (by rw [hcmd]; rfl)) ?_
    exact scontrol_validateEntity_update_reject command options entity hcmd ht hf hne hinv
  · intro path command options use_json exec jloads entity hcmd ht hf hne hinv
    refine scontrol_run_entity_error path command options use_json exec jloads _
      (scontrol_validate_command_ok command (by rw [hcmd]; rfl)) ?_
    exact scontrol_validateEntity_create_reject command options entity hcmd ht hf hne hinv
  · intro path command options use_json exec jloads entity hcmd ht hf hne hinv
    refine scontrol_run_entity_error path command options use_json exec jloads _
      (scontrol_validate_command_ok command (by rw [hcmd]; rfl)) ?_
    exact scontrol_validateEntity_delete_reject command options entity hcmd ht hf hne hinv

/-- Witness for C6: a concrete invalid verb and a concrete invalid show entity
are rejected with the enumerating messages. -/
theorem c6_validation_witness :
    SacctmgrHelper.VALID_COMMANDS.contains (pyLower "frobnicate") = false ∧
    SacctmgrHelper.run_command "/usr/bin/sacctmgr" "frobnicate" "account" Opts.none true
        Option.none (fun _ => ExecOutcome.completed 0 "" "") (fun _ => Except.error "x")
      = .error (.failJson ("Invalid sacctmgr command: " ++ "frobnicate" ++
          ". Valid commands are: " ++
          String.intercalate ", " SacctmgrHelper.VALID_COMMANDS)) ∧
    ScontrolHelper.SHOW_ENTITIES.contains (pyLower "gadget") = false ∧
    ScontrolHelper.run_command "/usr/bin/scontrol" "show" (Opts.list ["gadget"]) true
        (fun _ => ExecOutcome.completed 0 "" "") (fun _ => Except.error "x")
      = .error (.failJson ("Invalid show entity: " ++ "gadget" ++
          ". Valid entities are: " ++
          String.intercalate ", " ScontrolHelper.SHOW_ENTITIES)) :=
  ⟨rfl,
   c6_validation_amended.1 "/usr/bin/sacctmgr" "frobnicate" "account" Opts.none true
     Option.none (fun _ => ExecOutcome.completed 0 "" "") (fun _ => Except.error "x") rfl,
   rfl,
   c6_validation_amended.2.2.2.1 "/usr/bin/scontrol" "show" (Opts.list ["gadget"]) true
     (fun _ => ExecOutcome.completed 0 "" "") (fun _ => Except.error "x") "gadget"
     rfl rfl rfl (by decide) rfl⟩

/-- C9: scontrol verbs other than show, update, create and delete get no
entity validation: for any already-tokenized options the built vector is
path, verb, then the options unchanged, and a completed subprocess always
yields an ordinary Result whose command line carries those tokens verbatim. -/
theorem c9_no_entity_validation (path command : String) (opts : List String)
    (use_json : Bool)
    (hvalid : ScontrolHelper.VALID_COMMANDS.contains (pyLower command) = true)
    (h1 : pyLower command ≠ "show") (h2 : pyLower command ≠ "update")
    (h3 : pyLower command ≠ "create") (h4 : pyLower command ≠ "delete") :
    ScontrolHelper.build_command path command (Opts.list opts) use_json
      = .ok (path :: command :: opts) ∧
    ∀ rc out err (jloads : String → Except String Json), ∃ r,
      ScontrolHelper.run_command path command (Opts.list opts) use_json
          (fun _ => ExecOutcome.completed rc out err) jloads = .ok r ∧
      r.command = String.intercalate " " (path :: command :: opts) := by
  have hjson : ScontrolHelper.JSON_SUPPORTED_COMMANDS.contains (pyLower command) = false := by
    rw [scontrol_json_cmds_eq]
    exact beq_eq_false_iff_ne.mpr h1
  have hb := scontrol_build_list_plain path command opts use_json hjson
  refine ⟨hb, ?_⟩
  intro rc out err jloads
  have hv : ScontrolHelper.validate_command command = .ok () :=
    scontrol_validate_command_ok command hvalid
  have he := scontrol_validateEntity_skip command (Opts.list opts) h1 h2 h3 h4
  refine ⟨completeResult (ScontrolHelper.READONLY_COMMANDS.contains (pyLower command))
    use_json (ScontrolHelper.JSON_SUPPORTED_COMMANDS.contains (pyLower command))
    (String.intercalate " " (path :: command :: opts)) jloads rc out err, ?_, ?_⟩
  · rw [scontrol_run_outcome path command (Opts.list opts) use_json _ jloads _ hv he hb]
  · rw [completeResult_command]

/-- Witness for C9 at a concrete scontrol hold request. -/
theorem c9_no_entity_validation_witness :
    ScontrolHelper.VALID_COMMANDS.contains (pyLower "hold") = true ∧
    pyLower "hold" ≠ "show" ∧ pyLower "hold" ≠ "update" ∧
    pyLower "hold" ≠ "create" ∧ pyLower "hold" ≠ "delete" ∧
    ScontrolHelper.build_command "/usr/bin/scontrol" "hold" (Opts.list ["123"]) false
      = .ok ["/usr/bin/scontrol", "hold", "123"] ∧
    ∃ r, ScontrolHelper.run_command "/usr/bin/scontrol" "hold" (Opts.list ["123"]) false
        (fun _ => ExecOutcome.completed 0 "" "") (fun _ => Except.error "x") = .ok r ∧
      r.command = String.intercalate " " ["/usr/bin/scontrol", "hold", "123"] :=
  ⟨rfl, by decide, by decide, by decide, by decide,
   (c9_no_entity_validation "/usr/bin/scontrol" "hold" ["123"] false rfl
     (by decide) (by decide) (by decide) (by decide)).1,
   (c9_no_entity_validation "/usr/bin/scontrol" "hold" ["123"] false rfl
     (by decide) (by decide) (by decide) (by decide)).2 0 "" ""
     (fun _ => Except.error "x")⟩

